import Mathlib

/-!
Verification of the `amradio` device-control stack (client `gui/model.py`,
`gui/event_bus.py`, `gui/config.py`, `gui/api.py`, and device-side
`am_scpi_server.py`) against its natural-language specification.

The Python source is shallowly embedded: Python ints become `Nat`/`Int`
(with explicit `% 2^32` where the source masks with `0xFFFFFFFF`),
dictionaries become association lists with last-binding-wins lookup,
stateful methods become pure functions from a state record to a state
record together with the list of commands handed to the network layer and
the list of events published on the event bus.
-/

namespace AmRadio

/-! ## Enumerations (gui/model.py, gui/event_bus.py) -/

/-- `ConnectionState` from gui/model.py. -/
inductive ConnectionState where
  | DISCONNECTED
  | CONNECTING
  | CONNECTED
  | RECONNECTING
  | ERROR
deriving DecidableEq, Repr

/-- `BroadcastState` from gui/model.py. -/
inductive BroadcastState where
  | IDLE
  | ARMING
  | BROADCASTING
  | STOPPING
  | ERROR
deriving DecidableEq, Repr

/-- `WatchdogState` from gui/model.py. -/
inductive WatchdogState where
  | OK
  | WARNING
  | TRIGGERED
  | DISABLED
deriving DecidableEq, Repr

/-- The subset of `EventType` (gui/event_bus.py) reached by the embedded code. -/
inductive EventType where
  | CONNECT_REQUESTED
  | CONNECT_SUCCESS
  | CONNECT_FAILED
  | DISCONNECTED
  | RECONNECT_ATTEMPT
  | COMMAND_TIMEOUT
  | COMMAND_FAILED
  | BROADCAST_ARMING
  | BROADCAST_STARTED
  | BROADCAST_STOPPED
  | CHANNEL_ENABLED
  | CHANNEL_DISABLED
  | CHANNEL_FREQ_CHANGED
  | DEVICE_STATE_UPDATED
  | DEVICE_HEARTBEAT
  | DEVICE_HEARTBEAT_LOST
  | SOURCE_CHANGED
  | MESSAGE_CHANGED
  | ERROR_OCCURRED
  | WATCHDOG_WARNING
  | WATCHDOG_TRIGGERED
  | WATCHDOG_RESET
deriving DecidableEq, Repr

/-! ## Configuration constants (gui/config.py) -/

/-- `Config.FREQ_MIN` (gui/config.py line 45). -/
def FREQ_MIN : ℕ := 530000

/-- `Config.FREQ_MAX` (gui/config.py line 46). -/
def FREQ_MAX : ℕ := 1700000

/-- `Config.MAX_RECONNECT_ATTEMPTS` (gui/config.py line 38). -/
def MAX_RECONNECT_ATTEMPTS : ℕ := 5

/-- `Config.AUTO_RECONNECT` (gui/config.py line 36). -/
def AUTO_RECONNECT : Bool := true

/-- `Config.CHANNELS` (gui/config.py lines 53-66): pairs of id and
default frequency for the 12 channels. -/
def CHANNELS : List (ℕ × ℤ) :=
  [(1, 540000), (2, 640000), (3, 740000), (4, 840000),
   (5, 940000), (6, 1040000), (7, 1140000), (8, 1240000),
   (9, 1340000), (10, 1440000), (11, 1540000), (12, 1640000)]

/-- `Config.SOURCE_ADC`. -/
def SOURCE_ADC : String := "ADC"

/-- `Config.SOURCE_BRAM`. -/
def SOURCE_BRAM : String := "BRAM"

/-! ## Device-side SCPI server (am_scpi_server.py) -/

/-- `FPGA_CLK_HZ` (am_scpi_server.py line 84). -/
def FPGA_CLK_HZ : ℕ := 125000000

/-- `CTRL_MASTER_EN` (am_scpi_server.py line 79). -/
def CTRL_MASTER_EN : ℕ := 0

/-- `CTRL_SOURCE` (am_scpi_server.py line 80). -/
def CTRL_SOURCE : ℕ := 3

/-- `CTRL_MSG_SHIFT` (am_scpi_server.py line 81). -/
def CTRL_MSG_SHIFT : ℕ := 4

/-- `CTRL_WATCHDOG_EN` (am_scpi_server.py line 82): the same bit
position as `CTRL_MSG_SHIFT`. -/
def CTRL_WATCHDOG_EN : ℕ := 4

/-- `AMRadioController.freq_to_phase_inc` (am_scpi_server.py line 143):
`int((freq_hz * (1 << 32)) / FPGA_CLK_HZ) & 0xFFFFFFFF`.  The Python
source divides in double precision; the theorems below show that for
every frequency in the claim's range the floor of any value within the
double-rounding error of the exact quotient agrees with this exact
integer embedding. -/
def freq_to_phase_inc (freq_hz : ℕ) : ℕ :=
  ((freq_hz * 2 ^ 32) / FPGA_CLK_HZ) % 2 ^ 32

/-- `AMRadioController.set_ctrl_bit` (am_scpi_server.py lines 145-151),
acting on the `ctrl_shadow` word.  Python's `x |= (1 << bit)` and
`x &= ~(1 << bit)` on a nonnegative int are `Nat.lor`/`Nat.ldiff`. -/
def set_ctrl_bit (ctrl : ℕ) (bit : ℕ) (value : Bool) : ℕ :=
  if value then ctrl ||| (1 <<< bit) else Nat.ldiff ctrl (1 <<< bit)

/-- Effect of `OUTPUT:STATE ON` on `ctrl_shadow`
(am_scpi_server.py lines 267-269): master-enable bit, then the
watchdog-enable bit, are set. -/
def output_state_on (ctrl : ℕ) : ℕ :=
  set_ctrl_bit (set_ctrl_bit ctrl CTRL_MASTER_EN true) CTRL_WATCHDOG_EN true

/-- Effect of `SOURCE:MSG <id>` on `ctrl_shadow`
(am_scpi_server.py lines 341-342):
`ctrl &= ~(0xF << CTRL_MSG_SHIFT); ctrl |= (msg_id & 0xF) << CTRL_MSG_SHIFT`. -/
def source_msg (ctrl : ℕ) (msg_id : ℕ) : ℕ :=
  Nat.ldiff ctrl (0xF <<< CTRL_MSG_SHIFT) ||| ((msg_id &&& 0xF) <<< CTRL_MSG_SHIFT)

/-- `AMRadioController.get_status` (am_scpi_server.py lines 234-247)
restricted to its delimiter structure: the server joins the
`key=value` parts with `";"`. -/
def server_status_join (parts : List String) : String :=
  String.intercalate ";" parts

/-! ## Dictionaries

Python `dict`s are embedded as association lists where a later binding
for the same key overwrites an earlier one, so lookup scans from the
rear. -/

/-- Lookup with last-binding-wins semantics (Python `dict` access /
`dict.get`). -/
def dget [BEq κ] (d : List (κ × α)) (k : κ) : Option α :=
  d.reverse.lookup k

/-- Overwriting insertion (Python `dict` assignment). -/
def dset [BEq κ] (d : List (κ × α)) (k : κ) (v : α) : List (κ × α) :=
  d ++ [(k, v)]

/-! ## Client data model (gui/model.py) -/

/-- `ChannelState` (gui/model.py lines 51-57). -/
structure ChannelState where
  id : ℕ
  frequency : ℤ
  enabled : Bool
  confirmed : Bool
deriving DecidableEq, Repr

/-- `DeviceState` (gui/model.py lines 60-88).  The `last_update`
timestamp is wall-clock time and is not modelled; every other field is
kept. -/
structure DeviceState where
  connected : Bool
  broadcasting : Bool
  source : String
  channels : List ChannelState
  stale : Bool
  watchdog_enabled : Bool
  watchdog_triggered : Bool
  watchdog_warning : Bool
  watchdog_time_remaining : ℤ
deriving DecidableEq, Repr

/-- The `DeviceState()` constructed in `Model.__init__`: defaults plus
the channel list built from `Config.CHANNELS` in `__post_init__`. -/
def initDeviceState : DeviceState where
  connected := false
  broadcasting := false
  source := ""
  channels := CHANNELS.map fun c => ⟨c.1, c.2, false, false⟩
  stale := true
  watchdog_enabled := true
  watchdog_triggered := false
  watchdog_warning := false
  watchdog_time_remaining := 5

/-- A value stored in `Model.pending_state` (heterogeneous Python dict
values). -/
inductive PendVal where
  | int (i : ℤ)
  | bool (b : Bool)
  | str (s : String)
deriving DecidableEq, Repr

/-- The fields of `Model` (gui/model.py lines 392-405) that the
embedded methods read or write. -/
structure ModelState where
  device_state : DeviceState
  pending_state : List (String × PendVal)
  connection_state : ConnectionState
  broadcast_state : BroadcastState
  watchdog_state : WatchdogState
deriving DecidableEq, Repr

/-- The state of a freshly constructed `Model`. -/
def initModelState : ModelState where
  device_state := initDeviceState
  pending_state := []
  connection_state := .DISCONNECTED
  broadcast_state := .IDLE
  watchdog_state := .OK

/-- Result of one embedded `Model` method call: the successor state,
the commands handed to `NetworkManager.send_command`, and the event
types published on the bus. -/
structure OpEffect where
  state : ModelState
  sent : List String
  events : List EventType
deriving DecidableEq, Repr

/-- Python `x in ["1", "true", "True", True]` for a string `x` (the
status values are always strings, so the `True` member can never
match). -/
def truthyS (s : String) : Bool :=
  s == "1" || s == "true" || s == "True"

/-- The same membership test applied to `dict.get`'s optional result:
`None in [...]` is false. -/
def truthyO : Option String → Bool
  | some s => truthyS s
  | none => false

/-! ## Status parsing (NetworkManager._parse_and_publish_status) -/

/-- Python `str.split(sep)` for a one-character separator, on the
character list (`"".split(",") == [""]`). -/
def pysplit (sep : Char) : List Char → List (List Char)
  | [] => [[]]
  | c :: cs =>
    let r := pysplit sep cs
    if c = sep then [] :: r
    else
      match r with
      | [] => [[c]]
      | p :: ps => (c :: p) :: ps

/-- Python `str.split(sep, 1)` when the separator occurs (so also the
`sep in part` test): the text before the first separator and all of the
text after it. -/
def pysplit1 (sep : Char) : List Char → Option (List Char × List Char)
  | [] => none
  | c :: cs =>
    if c = sep then some ([], cs)
    else (pysplit1 sep cs).map fun p => (c :: p.1, p.2)

/-- Python `str.strip()`: drop whitespace from both ends. -/
def pystrip (l : List Char) : List Char :=
  ((l.dropWhile Char.isWhitespace).reverse.dropWhile Char.isWhitespace).reverse

/-- The dictionary built by `_parse_and_publish_status`
(gui/model.py lines 312-316): split the payload on `","`, and for each
part containing `"="` split once on `"="` and strip both sides. -/
def parse_status (status : String) : List (String × String) :=
  (pysplit ',' status.data).filterMap fun part =>
    match pysplit1 '=' part with
    | some kv => some (String.mk (pystrip kv.1), String.mk (pystrip kv.2))
    | none => none

/-! ## Model event handlers (gui/model.py lines 445-528) -/

/-- `Model._on_watchdog_triggered` (gui/model.py lines 445-455). -/
def on_watchdog_triggered (st : ModelState) : ModelState :=
  { st with
    watchdog_state := .TRIGGERED
    device_state := { st.device_state with watchdog_triggered := true }
    broadcast_state := .IDLE }

/-- `Model._on_watchdog_warning` (gui/model.py lines 457-460). -/
def on_watchdog_warning (st : ModelState) : ModelState :=
  { st with
    watchdog_state := .WARNING
    device_state := { st.device_state with watchdog_warning := true } }

/-- The per-channel body of the update loop in
`Model._on_device_state_updated` (gui/model.py lines 504-518). -/
def update_channel (data : List (String × String)) (ch : ChannelState) : ChannelState :=
  let ch1 :=
    match dget data ("ch" ++ toString ch.id ++ "_enabled") with
    | some v => { ch with enabled := truthyS v, confirmed := true }
    | none => ch
  match dget data ("ch" ++ toString ch.id ++ "_freq") with
  | some v =>
    match v.toInt? with
    | some n => { ch1 with frequency := n, confirmed := true }
    | none => ch1
  | none => ch1

/-- `Model._on_device_state_updated` (gui/model.py lines 462-528),
returning the successor state and the events it publishes
(`BROADCAST_STARTED`/`BROADCAST_STOPPED` edges). -/
def on_device_state_updated (st : ModelState) (data : List (String × String)) :
    ModelState × List EventType :=
  let st :=
    match dget data "watchdog_triggered" with
    | some v =>
      let triggered := truthyS v
      let ds := { st.device_state with watchdog_triggered := triggered }
      if triggered then
        { st with device_state := ds, watchdog_state := .TRIGGERED }
      else if truthyO (dget data "watchdog_warning") then
        { st with device_state := { ds with watchdog_warning := true },
                  watchdog_state := .WARNING }
      else
        { st with device_state := { ds with watchdog_warning := false },
                  watchdog_state := .OK }
    | none => st
  let st :=
    match dget data "watchdog_time" with
    | some v =>
      match v.toInt? with
      | some n =>
        { st with device_state := { st.device_state with watchdog_time_remaining := n } }
      | none => st
    | none => st
  let st :=
    match dget data "watchdog_enabled" with
    | some v =>
      { st with device_state := { st.device_state with watchdog_enabled := truthyS v } }
    | none => st
  let r :=
    match dget data "broadcasting" with
    | some v =>
      let was := st.device_state.broadcasting
      let st := { st with device_state := { st.device_state with broadcasting := truthyS v } }
      if st.device_state.broadcasting && !was then
        ({ st with broadcast_state := .BROADCASTING }, [EventType.BROADCAST_STARTED])
      else if !st.device_state.broadcasting && was then
        ({ st with broadcast_state := .IDLE }, [EventType.BROADCAST_STOPPED])
      else (st, [])
    | none => (st, [])
  let st := r.1
  let st :=
    { st with device_state :=
      { st.device_state with channels := st.device_state.channels.map (update_channel data) } }
  let st :=
    match dget data "source" with
    | some v => { st with device_state := { st.device_state with source := v } }
    | none => st
  ({ st with device_state := { st.device_state with stale := false }, pending_state := [] },
   r.2)

/-- `NetworkManager._parse_and_publish_status` (gui/model.py lines
309-328) together with the synchronous `Model` handlers invoked by each
publish, acting on an already-built data dictionary.  The
`WATCHDOG_TRIGGERED` (or `WATCHDOG_WARNING`) publish precedes the
`DEVICE_STATE_UPDATED` publish, so `_on_watchdog_triggered` runs before
`_on_device_state_updated`. -/
def process_status_data (st : ModelState) (data : List (String × String)) :
    ModelState × List EventType :=
  let r1 :=
    if dget data "watchdog_triggered" == some "1" then
      (on_watchdog_triggered st, [EventType.WATCHDOG_TRIGGERED])
    else if dget data "watchdog_warning" == some "1" then
      (on_watchdog_warning st, [EventType.WATCHDOG_WARNING])
    else (st, ([] : List EventType))
  let r2 := on_device_state_updated r1.1 data
  (r2.1, r1.2 ++ [EventType.DEVICE_STATE_UPDATED] ++ r2.2)

/-- One status payload processed end to end: parse, publish, handle. -/
def process_status (st : ModelState) (status : String) : ModelState × List EventType :=
  process_status_data st (parse_status status)

/-! ## Model command operations (gui/model.py lines 543-617)

Each method is embedded as a function producing the successor state,
the list of commands it hands to `NetworkManager.send_command`, and the
event types it publishes. -/

/-- `Config.SCPI.WATCHDOG_RESET`. -/
def WATCHDOG_RESET_CMD : String := "WATCHDOG:RESET"

/-- `Config.SCPI.QUERY_STATUS`. -/
def QUERY_STATUS_CMD : String := "STATUS?"

/-- `Model.set_source` (gui/model.py lines 543-552). -/
def set_source (st : ModelState) (source : String) : OpEffect :=
  if source ≠ SOURCE_ADC ∧ source ≠ SOURCE_BRAM then
    { state := st, sent := [], events := [] }
  else
    { state := { st with pending_state := dset st.pending_state "source" (.str source) }
      sent := ["SOURCE:INPUT " ++ source]
      events := [.SOURCE_CHANGED] }

/-- `Model.set_message` (gui/model.py lines 554-560). -/
def set_message (st : ModelState) (message_id : ℤ) : OpEffect :=
  { state := { st with pending_state := dset st.pending_state "message" (.int message_id) }
    sent := ["SOURCE:MSG " ++ toString message_id]
    events := [.MESSAGE_CHANGED] }

/-- `Model.set_channel_frequency` (gui/model.py lines 562-572).  Note:
the source performs no range validation. -/
def set_channel_frequency (st : ModelState) (channel_id : ℕ) (frequency : ℤ) : OpEffect :=
  let p := dset st.pending_state ("ch" ++ toString channel_id ++ "_freq") (.int frequency)
  { state := { st with pending_state := p }
    sent := ["FREQ:CH" ++ toString channel_id ++ " " ++ toString frequency]
    events := [.CHANNEL_FREQ_CHANGED] }

/-- `Model.set_channel_enabled` (gui/model.py lines 574-582). -/
def set_channel_enabled (st : ModelState) (channel_id : ℕ) (enabled : Bool) : OpEffect :=
  let p := dset st.pending_state ("ch" ++ toString channel_id ++ "_enabled") (.bool enabled)
  { state := { st with pending_state := p }
    sent := ["CH" ++ toString channel_id ++ ":OUTPUT " ++ (if enabled then "ON" else "OFF")]
    events := [if enabled then .CHANNEL_ENABLED else .CHANNEL_DISABLED] }

/-- `Model.set_broadcast` (gui/model.py lines 584-609): refused locally
when starting while the watchdog is triggered. -/
def set_broadcast (st : ModelState) (active : Bool) : OpEffect :=
  if active && st.device_state.watchdog_triggered then
    { state := st, sent := [], events := [.ERROR_OCCURRED] }
  else
    let r :=
      if active then
        ({ st with broadcast_state := .ARMING }, [EventType.BROADCAST_ARMING])
      else
        ({ st with broadcast_state := .STOPPING }, ([] : List EventType))
    { state := r.1
      sent := ["OUTPUT:STATE " ++ (if active then "ON" else "OFF")]
      events := r.2 }

/-- `Model.reset_watchdog` (gui/model.py lines 611-617). -/
def reset_watchdog (st : ModelState) : OpEffect :=
  { state := { st with
      watchdog_state := .OK
      device_state := { st.device_state with
        watchdog_triggered := false, watchdog_warning := false } }
    sent := [WATCHDOG_RESET_CMD]
    events := [.WATCHDOG_RESET] }

/-! ## Poll loop (NetworkManager._poll_loop, gui/model.py lines 223-249) -/

/-- An observable action of one poll tick: a command sent on the
socket, or the parse-and-commit of a status response. -/
inductive PollAction where
  | send (cmd : String)
  | commit (data : List (String × String))
deriving DecidableEq, Repr

/-- One iteration of `_poll_loop`: send `WATCHDOG:RESET`, then send
`STATUS?`, and only if a non-empty response arrives, parse it and run
the publish/handle pipeline (`if status:` is false for `None` and for
the empty string). -/
def poll_tick (st : ModelState) (respond : String → Option String) :
    ModelState × List PollAction :=
  let a1 := PollAction.send WATCHDOG_RESET_CMD
  let a2 := PollAction.send QUERY_STATUS_CMD
  match respond QUERY_STATUS_CMD with
  | some status =>
    if status.isEmpty then (st, [a1, a2])
    else
      ((process_status st status).1, [a1, a2, PollAction.commit (parse_status status)])
  | none => (st, [a1, a2])

/-! ## Connection failure handling (NetworkManager, gui/model.py lines 278-307) -/

/-- The `NetworkManager` fields read and written by
`_handle_connection_failure`. -/
structure NMState where
  connection_state : ConnectionState
  reconnect_count : ℕ
  running : Bool
  auto_reconnect : Bool
deriving DecidableEq, Repr

/-- `NetworkManager._handle_connection_failure` (gui/model.py lines
278-307).  The boolean reports whether a new connect attempt
(`_connect_async`) is launched. -/
def handle_connection_failure (s : NMState) : NMState × List EventType × Bool :=
  let s := { s with running := false }
  if !s.auto_reconnect then
    ({ s with connection_state := .DISCONNECTED }, [.DISCONNECTED], false)
  else if MAX_RECONNECT_ATTEMPTS ≤ s.reconnect_count then
    ({ s with connection_state := .DISCONNECTED }, [.DISCONNECTED], false)
  else
    ({ s with reconnect_count := s.reconnect_count + 1, connection_state := .RECONNECTING },
     [.RECONNECT_ATTEMPT], true)

/-- One failing connect attempt: `_connect_async`'s exception branch
(gui/model.py lines 201-211) sets the ERROR state, publishes
`CONNECT_FAILED`, and calls `_handle_connection_failure`. -/
def fail_connect (s : NMState) : NMState × List EventType × Bool :=
  let s := { s with connection_state := .ERROR }
  let r := handle_connection_failure s
  (r.1, .CONNECT_FAILED :: r.2.1, r.2.2)

/-- A run in which every connect attempt fails, with explicit fuel:
each step is one failing attempt; the run continues only while
`_handle_connection_failure` launches another attempt. -/
def fail_run : ℕ → NMState → NMState × List EventType
  | 0, s => (s, [])
  | fuel + 1, s =>
    let r := fail_connect s
    if r.2.2 then
      ((fail_run fuel r.1).1, r.2.1 ++ (fail_run fuel r.1).2)
    else
      (r.1, r.2.1)

/-- The `NetworkManager` right after `connect()` dispatches its first
background attempt: fresh manager, retry counter zero, auto-reconnect
from `Config.AUTO_RECONNECT`. -/
def initNMState : NMState where
  connection_state := .CONNECTING
  reconnect_count := 0
  running := false
  auto_reconnect := AUTO_RECONNECT

/-! ## API layer validation (gui/api.py lines 143-160) -/

/-- Result of the `update_channel` endpoint: either the effect of the
forwarded model call, or a synchronous `HTTPException` raised before
any model call. -/
inductive ApiResult where
  | ok (eff : OpEffect)
  | error (status_code : ℕ) (detail : String)
deriving DecidableEq, Repr

/-- The frequency branch of `update_channel` (gui/api.py lines
143-160): unknown channel → 404; out-of-range frequency → 400, raised
before `Model.set_channel_frequency` is called. -/
def api_update_channel_frequency (st : ModelState) (channel_id : ℕ) (frequency : ℤ) :
    ApiResult :=
  if channel_id < 1 ∨ 12 < channel_id then
    .error 404 ("Channel " ++ toString channel_id ++ " not found")
  else if frequency < (FREQ_MIN : ℤ) ∨ (FREQ_MAX : ℤ) < frequency then
    .error 400 "Frequency must be between 530000 and 1700000 Hz"
  else
    .ok (set_channel_frequency st channel_id frequency)

/-! ## Event bus (gui/event_bus.py lines 92-176) -/

/-- Per-instance `EventBus` state: the `_initialized` flag and the
subscriber registry (handlers are identified by numbers). -/
structure BusState where
  initialized : Bool
  subscribers : List (EventType × List ℕ)
deriving DecidableEq, Repr

/-- The Python interpreter state relevant to `EventBus` construction:
an allocation counter, the class attribute `EventBus._instance`, and
the heap of allocated bus objects. -/
structure PyWorld where
  next_id : ℕ
  inst : Option ℕ
  heap : List (ℕ × BusState)
deriving DecidableEq, Repr

/-- The world at module import, before `event_bus = EventBus()`. -/
def initWorld : PyWorld := ⟨0, none, []⟩

/-- `EventBus.__new__` (gui/event_bus.py lines 105-112): allocate one
instance the first time, return the stored instance afterwards. -/
def bus_new (w : PyWorld) : PyWorld × ℕ :=
  match w.inst with
  | some i => (w, i)
  | none =>
    let i := w.next_id
    ({ next_id := i + 1, inst := some i, heap := dset w.heap i ⟨false, []⟩ }, i)

/-- `EventBus.__init__` (gui/event_bus.py lines 114-123): a no-op when
`_initialized` is already set, otherwise resets the registry once. -/
def bus_init (w : PyWorld) (i : ℕ) : PyWorld :=
  match dget w.heap i with
  | none => w
  | some b =>
    if b.initialized then w
    else { w with heap := dset w.heap i ⟨true, []⟩ }

/-- A Python `EventBus()` expression: `__new__` then `__init__`. -/
def eventbus_ctor (w : PyWorld) : PyWorld × ℕ :=
  let r := bus_new w
  (bus_init r.1 r.2, r.2)

/-- `EventBus.subscribe` (gui/event_bus.py lines 125-131) on instance
`i`: append the callback to the type's list unless already present. -/
def bus_subscribe (w : PyWorld) (i : ℕ) (t : EventType) (h : ℕ) : PyWorld :=
  match dget w.heap i with
  | none => w
  | some b =>
    let hs := (dget b.subscribers t).getD []
    let hs' := if h ∈ hs then hs else hs ++ [h]
    { w with heap := dset w.heap i ⟨b.initialized, dset b.subscribers t hs'⟩ }

/-- `EventBus.publish` (gui/event_bus.py lines 140-156) on instance
`i`, returning the identities of the callbacks invoked for the event's
type. -/
def bus_publish (w : PyWorld) (i : ℕ) (t : EventType) : List ℕ :=
  match dget w.heap i with
  | none => []
  | some b => (dget b.subscribers t).getD []

/-- The server-format status payload of the end-to-end scenario, first
poll (all quiet). -/
def statusOkStr : String :=
  "broadcasting=0;watchdog_triggered=0;ch1_enabled=0;ch1_freq=540000"

/-- The same payload after the mock flips `watchdog_triggered` to 1. -/
def statusTripStr : String :=
  "broadcasting=0;watchdog_triggered=1;ch1_enabled=0;ch1_freq=540000"

/-! ## Theorems -/

/-- C1: the claim states that a poll tick whose parsed data carries
`watchdog_triggered = "1"` always ends with broadcast state IDLE, even
if the payload also reports `broadcasting = "1"`.  The code violates
this: starting from the initial state (not broadcasting), the tick with
data `{watchdog_triggered: "1", broadcasting: "1"}` ends with the
broadcast state machine in BROADCASTING — the `_on_device_state_updated`
rising-edge handling overwrites the IDLE that `_on_watchdog_triggered`
had just forced, so the contradictory `broadcasting` field does mask
the safety trip. -/
theorem watchdog_trip_masked_by_broadcast_edge :
    ((process_status_data initModelState
        [("watchdog_triggered", "1"), ("broadcasting", "1")]).1.broadcast_state
      = BroadcastState.BROADCASTING) ∧
    ((process_status_data initModelState
        [("watchdog_triggered", "1"), ("broadcasting", "1")]).1.broadcast_state
      ≠ BroadcastState.IDLE) ∧
    ((process_status_data initModelState
        [("watchdog_triggered", "1"), ("broadcasting", "1")]).1.watchdog_state
      = WatchdogState.TRIGGERED) := by
  refine ⟨rfl, ?_, rfl⟩
  decide

/-- C2: `set_broadcast(True)` while `device_state.watchdog_triggered`
is true hands no command to the network layer, publishes exactly an
`ERROR_OCCURRED` event, and leaves the model state — in particular the
broadcast state machine and the whole `DeviceState` — unchanged. -/
theorem set_broadcast_refused_when_triggered (st : ModelState)
    (h : st.device_state.watchdog_triggered = true) :
    (set_broadcast st true).sent = [] ∧
    (set_broadcast st true).events = [EventType.ERROR_OCCURRED] ∧
    (set_broadcast st true).state = st := by
  simp [set_broadcast, h]

/-- Witness for `set_broadcast_refused_when_triggered` at a concrete
state with the watchdog tripped. -/
theorem set_broadcast_refused_when_triggered_witness :
    (({ initModelState with device_state :=
        { initModelState.device_state with watchdog_triggered := true } } :
        ModelState).device_state.watchdog_triggered = true) ∧
    ((set_broadcast { initModelState with device_state :=
        { initModelState.device_state with watchdog_triggered := true } } true).sent = [] ∧
     (set_broadcast { initModelState with device_state :=
        { initModelState.device_state with watchdog_triggered := true } } true).events
       = [EventType.ERROR_OCCURRED] ∧
     (set_broadcast { initModelState with device_state :=
        { initModelState.device_state with watchdog_triggered := true } } true).state
       = { initModelState with device_state :=
            { initModelState.device_state with watchdog_triggered := true } }) :=
  ⟨rfl, set_broadcast_refused_when_triggered _ rfl⟩

/-- C3: in every poll-loop iteration, the `WATCHDOG:RESET` send comes
first, the `STATUS?` send second, and any parse-and-commit action sits
strictly after both sends, whatever the device answers. -/
theorem poll_tick_ordering (st : ModelState) (respond : String → Option String) :
    (poll_tick st respond).2.take 2 =
      [PollAction.send WATCHDOG_RESET_CMD, PollAction.send QUERY_STATUS_CMD] ∧
    ∀ a ∈ (poll_tick st respond).2.drop 2, ∃ d, a = PollAction.commit d := by
  unfold poll_tick
  cases hr : respond QUERY_STATUS_CMD with
  | none => simp
  | some s =>
    by_cases hs : s.isEmpty <;> simp [hs]

/-- C4: the end-to-end scenario of the claim fails on the code.  The
client splits the status payload on `","` while the server joins it
with `";"` (`server_status_join`), so the `";"`-joined scenario string
parses to the single key `broadcasting`.  After the first tick,
`channels[0].frequency = 540000` and `stale = false` do hold — but the
frequency is merely the `Config.CHANNELS` default and the channel was
never confirmed.  After the flipped tick the watchdog state is still
OK, not TRIGGERED (the broadcast state stays IDLE only because it
already was). -/
theorem status_delimiter_mismatch :
    (server_status_join ["a=1", "b=2"] = "a=1;b=2") ∧
    (parse_status statusTripStr =
      [("broadcasting", "0;watchdog_triggered=1;ch1_enabled=0;ch1_freq=540000")]) ∧
    (((process_status initModelState statusOkStr).1.device_state.channels.head?.map
        fun c => c.frequency) = some 540000) ∧
    (((process_status initModelState statusOkStr).1.device_state.channels.head?.map
        fun c => c.confirmed) = some false) ∧
    ((process_status initModelState statusOkStr).1.device_state.stale = false) ∧
    ((process_status (process_status initModelState statusOkStr).1
        statusTripStr).1.watchdog_state = WatchdogState.OK) ∧
    ((process_status (process_status initModelState statusOkStr).1
        statusTripStr).1.watchdog_state ≠ WatchdogState.TRIGGERED) ∧
    ((process_status (process_status initModelState statusOkStr).1
        statusTripStr).1.broadcast_state = BroadcastState.IDLE) := by
  refine ⟨rfl, by decide, rfl, rfl, rfl, rfl, by decide, rfl⟩

/-- The frequency produced by one channel-update step: either the
parsed `ch<id>_freq` value or the old frequency. -/
def reconciled_frequency (data : List (String × String)) (c : ChannelState) : ℤ :=
  match dget data ("ch" ++ toString c.id ++ "_freq") with
  | some v =>
    match v.toInt? with
    | some n => n
    | none => c.frequency
  | none => c.frequency

theorem update_channel_frequency (data : List (String × String)) (c : ChannelState) :
    (update_channel data c).frequency = reconciled_frequency data c := by
  unfold update_channel reconciled_frequency
  rcases dget data ("ch" ++ toString c.id ++ "_enabled") with _ | v <;>
    rcases hf : dget data ("ch" ++ toString c.id ++ "_freq") with _ | w <;>
      simp [hf] <;> rcases w.toInt? with _ | n <;> simp

theorem on_device_state_updated_channels (st : ModelState) (data : List (String × String)) :
    (on_device_state_updated st data).1.device_state.channels =
      st.device_state.channels.map (update_channel data) := by
  unfold on_device_state_updated
  dsimp only
  repeat' split
  all_goals rfl

/-- C5 counterexample: `reset_watchdog` is a command-issuing operation
that does write `DeviceState` directly — it clears
`watchdog_triggered`, so the claim that none of the six operations
writes any `DeviceState` field is false. -/
theorem reset_watchdog_writes_device_state :
    ((reset_watchdog { initModelState with device_state :=
        { initModelState.device_state with watchdog_triggered := true } }).state.device_state.watchdog_triggered
      = false) ∧
    ((reset_watchdog { initModelState with device_state :=
        { initModelState.device_state with watchdog_triggered := true } }).state.device_state
      ≠ { initModelState.device_state with watchdog_triggered := true }) := by
  refine ⟨rfl, ?_⟩
  decide

/-- C5 amended: `set_source`, `set_message`, `set_channel_frequency`,
`set_channel_enabled` and `set_broadcast` never write any field of
`DeviceState` (they write only the pending map); `reset_watchdog`
writes exactly the `watchdog_triggered`/`watchdog_warning` fields — in
particular none of the six operations changes any channel's frequency,
and the reconciler gives channel `i` the parsed `ch<i>_freq` value when
one is present and keeps the old frequency otherwise. -/
theorem command_ops_frame (st : ModelState) (s : String) (mid : ℤ) (cid : ℕ) (hz : ℤ)
    (en active : Bool) (data : List (String × String)) :
    (set_source st s).state.device_state = st.device_state ∧
    (set_message st mid).state.device_state = st.device_state ∧
    (set_channel_frequency st cid hz).state.device_state = st.device_state ∧
    (set_channel_enabled st cid en).state.device_state = st.device_state ∧
    (set_broadcast st active).state.device_state = st.device_state ∧
    (reset_watchdog st).state.device_state =
      { st.device_state with watchdog_triggered := false, watchdog_warning := false } ∧
    ((on_device_state_updated st data).1.device_state.channels.map fun c => c.frequency) =
      st.device_state.channels.map (reconciled_frequency data) := by
  refine ⟨?_, rfl, rfl, rfl, ?_, rfl, ?_⟩
  · unfold set_source
    split <;> rfl
  · unfold set_broadcast
    split
    · rfl
    · split <;> rfl
  · rw [on_device_state_updated_channels, List.map_map]
    refine List.map_congr_left fun c _ => ?_
    exact update_channel_frequency data c

/-- C6 counterexample: `Model.set_channel_frequency` performs no range
check — called with 100000 Hz (below `FREQ_MIN`) it still hands the
command to the network layer, refuting "rejected before any I/O". -/
theorem set_channel_frequency_no_validation :
    ((100000 : ℤ) < (FREQ_MIN : ℤ)) ∧
    ((set_channel_frequency initModelState 1 100000).sent = ["FREQ:CH1 100000"]) := by
  refine ⟨by decide, ?_⟩
  rfl

/-- C6 amended: the range validation lives one layer up, in the
`update_channel` API endpoint (gui/api.py lines 152-158): an
out-of-range frequency is rejected there with a synchronous 400 error
before `Model.set_channel_frequency` — and hence any I/O — is reached;
`Model.set_channel_frequency` itself checks nothing and always hands
exactly one command to the network layer. -/
theorem api_rejects_out_of_range_frequency (st : ModelState) (cid : ℕ) (hz : ℤ)
    (h : hz < (FREQ_MIN : ℤ) ∨ (FREQ_MAX : ℤ) < hz) :
    (∀ eff, api_update_channel_frequency st cid hz ≠ .ok eff) ∧
    (∃ code detail, api_update_channel_frequency st cid hz = .error code detail) ∧
    (set_channel_frequency st cid hz).sent =
      ["FREQ:CH" ++ toString cid ++ " " ++ toString hz] := by
  unfold api_update_channel_frequency
  split_ifs with h1
  · exact ⟨fun eff => by simp, ⟨404, _, rfl⟩, rfl⟩
  · exact ⟨fun eff => by simp, ⟨400, _, rfl⟩, rfl⟩

/-- Witness for `api_rejects_out_of_range_frequency` at channel 1 and
100000 Hz. -/
theorem api_rejects_out_of_range_frequency_witness :
    ((100000 : ℤ) < (FREQ_MIN : ℤ) ∨ (FREQ_MAX : ℤ) < (100000 : ℤ)) ∧
    ((∀ eff, api_update_channel_frequency initModelState 1 100000 ≠ .ok eff) ∧
     (∃ code detail, api_update_channel_frequency initModelState 1 100000 =
        .error code detail) ∧
     (set_channel_frequency initModelState 1 100000).sent = ["FREQ:CH1 100000"]) :=
  ⟨Or.inl (by decide),
   api_rejects_out_of_range_frequency initModelState 1 100000 (Or.inl (by decide))⟩

/-- C8: `CTRL_MSG_SHIFT` and `CTRL_WATCHDOG_EN` are the same bit
position, 4.  `OUTPUT:STATE ON` sets control bit 4 (watchdog enable);
a subsequent `SOURCE:MSG <id>` rewrites bits 4-7 with the message id,
so for any even id it leaves bit 4 clear: the watchdog-enable bit is
lost. -/
theorem msg_select_clears_watchdog_enable (ctrl msg_id : ℕ) (h : msg_id % 2 = 0) :
    CTRL_MSG_SHIFT = CTRL_WATCHDOG_EN ∧
    Nat.testBit (output_state_on ctrl) CTRL_WATCHDOG_EN = true ∧
    Nat.testBit (source_msg (output_state_on ctrl) msg_id) CTRL_WATCHDOG_EN = false := by
  refine ⟨rfl, ?_, ?_⟩
  · simp [output_state_on, set_ctrl_bit, CTRL_WATCHDOG_EN, CTRL_MASTER_EN,
      Nat.testBit_lor]
    exact Or.inr (by decide)
  · have hbit : msg_id.testBit 0 = false := by
      simp [Nat.testBit, Nat.and_one_is_mod, h]
    simp [source_msg, CTRL_MSG_SHIFT, CTRL_WATCHDOG_EN, Nat.testBit_lor,
      Nat.testBit_ldiff, Nat.testBit_shiftLeft, Nat.testBit_land, hbit]
    exact ⟨fun _ => by decide, h⟩

/-- Witness for `msg_select_clears_watchdog_enable`: a cleared control
word, then `OUTPUT:STATE ON`, then `SOURCE:MSG 2`. -/
theorem msg_select_clears_watchdog_enable_witness :
    (2 % 2 = 0) ∧
    (CTRL_MSG_SHIFT = CTRL_WATCHDOG_EN ∧
     Nat.testBit (output_state_on 0) CTRL_WATCHDOG_EN = true ∧
     Nat.testBit (source_msg (output_state_on 0) 2) CTRL_WATCHDOG_EN = false) :=
  ⟨rfl, msg_select_clears_watchdog_enable 0 2 rfl⟩

/-- C10: `EventBus()` is a process-wide singleton.  Starting from the
interpreter state at module import, constructing the bus, subscribing a
handler through that handle, and then evaluating `EventBus()` again
yields the identical instance, leaves the interpreter state (and hence
the subscriber registry) untouched, and a publish through the second
handle invokes the handler subscribed through the first. -/
theorem eventbus_is_singleton (t : EventType) (h : ℕ) :
    ((eventbus_ctor (bus_subscribe (eventbus_ctor initWorld).1
        (eventbus_ctor initWorld).2 t h)).2 = (eventbus_ctor initWorld).2) ∧
    ((eventbus_ctor (bus_subscribe (eventbus_ctor initWorld).1
        (eventbus_ctor initWorld).2 t h)).1 =
      bus_subscribe (eventbus_ctor initWorld).1 (eventbus_ctor initWorld).2 t h) ∧
    (h ∈ bus_publish
      (eventbus_ctor (bus_subscribe (eventbus_ctor initWorld).1
        (eventbus_ctor initWorld).2 t h)).1
      (eventbus_ctor (bus_subscribe (eventbus_ctor initWorld).1
        (eventbus_ctor initWorld).2 t h)).2 t) := by
  simp [eventbus_ctor, bus_new, bus_init, bus_subscribe, bus_publish, dget, dset,
    initWorld, List.lookup]

theorem fail_connect_retry_iff (s : NMState) :
    (fail_connect s).2.2 = true ↔
      s.auto_reconnect = true ∧ s.reconnect_count < MAX_RECONNECT_ATTEMPTS := by
  unfold fail_connect handle_connection_failure
  dsimp only
  split_ifs with h1 h2 <;> simp_all

theorem fail_connect_retry_state (s : NMState) (h1 : s.auto_reconnect = true)
    (h2 : s.reconnect_count < MAX_RECONNECT_ATTEMPTS) :
    (fail_connect s).1 =
      ⟨.RECONNECTING, s.reconnect_count + 1, false, s.auto_reconnect⟩ := by
  unfold fail_connect handle_connection_failure
  dsimp only
  split_ifs with ha hb
  · simp_all
  · omega
  · rfl

theorem fail_run_fuel_irrelevant (fuel : ℕ) : ∀ (extra : ℕ) (s : NMState),
    1 ≤ fuel → MAX_RECONNECT_ATTEMPTS + 1 - s.reconnect_count ≤ fuel →
    fail_run (fuel + extra) s = fail_run fuel s := by
  induction fuel with
  | zero => exact fun _ _ h1 _ => absurd h1 (by omega)
  | succ n ih =>
    intro extra s _ h2
    have hstep : n + 1 + extra = (n + extra) + 1 := by omega
    rw [hstep]
    by_cases hc : s.auto_reconnect = true ∧ s.reconnect_count < MAX_RECONNECT_ATTEMPTS
    · have hr : (fail_connect s).2.2 = true := (fail_connect_retry_iff s).mpr hc
      have hst := fail_connect_retry_state s hc.1 hc.2
      have hM : MAX_RECONNECT_ATTEMPTS = 5 := rfl
      have hrec : fail_run (n + extra) (fail_connect s).1 = fail_run n (fail_connect s).1 := by
        refine ih extra (fail_connect s).1 ?_ ?_
        · omega
        · rw [hst]
          show MAX_RECONNECT_ATTEMPTS + 1 - (s.reconnect_count + 1) ≤ n
          omega
      simp only [fail_run, hr, if_true, hrec]
    · have hr : (fail_connect s).2.2 = false := by
        rcases hb : (fail_connect s).2.2 with _ | _
        · rfl
        · exact absurd ((fail_connect_retry_iff s).mp hb) hc
      simp only [fail_run, hr, if_false, Bool.false_eq_true]

/-- C9: the reconnect supervisor never retries forever.  The retry
counter can never exceed `MAX_RECONNECT_ATTEMPTS`; and in a run where
every connect attempt fails, the supervisor launches exactly
`MAX_RECONNECT_ATTEMPTS` reconnect attempts, ends in DISCONNECTED, and
emits the terminal `DISCONNECTED` event exactly once — processing the
run with any further fuel changes nothing, so no attempt follows the
exhaustion of the bound.  (In this accounting the initial `connect()`
failure precedes the `MAX_RECONNECT_ATTEMPTS` reconnect failures:
exhaustion is observed on the failure after the bound's last
attempt.) -/
theorem reconnect_bound :
    (∀ s : NMState, s.reconnect_count ≤ MAX_RECONNECT_ATTEMPTS →
      (handle_connection_failure s).1.reconnect_count ≤ MAX_RECONNECT_ATTEMPTS) ∧
    (∀ fuel : ℕ, 6 ≤ fuel → fail_run fuel initNMState = fail_run 6 initNMState) ∧
    ((fail_run 6 initNMState).1.connection_state = ConnectionState.DISCONNECTED ∧
     (fail_run 6 initNMState).2.count EventType.DISCONNECTED = 1 ∧
     (fail_run 6 initNMState).2.count EventType.RECONNECT_ATTEMPT = MAX_RECONNECT_ATTEMPTS ∧
     (fail_run 6 initNMState).1.reconnect_count = MAX_RECONNECT_ATTEMPTS) := by
  refine ⟨?_, ?_, by decide, by decide, by decide, by decide⟩
  · intro s hs
    have hM : MAX_RECONNECT_ATTEMPTS = 5 := rfl
    unfold handle_connection_failure
    dsimp only
    split_ifs <;> dsimp only <;> omega
  · intro fuel hf
    have h := fail_run_fuel_irrelevant 6 (fuel - 6) initNMState (by omega) (by decide)
    rw [show fuel = 6 + (fuel - 6) by omega]
    exact h

/-- Witness for `reconnect_bound`: the counter bound applied at a
saturated state, and fuel-irrelevance applied at fuel 7. -/
theorem reconnect_bound_witness :
    ((⟨ConnectionState.ERROR, 5, false, true⟩ : NMState).reconnect_count ≤
        MAX_RECONNECT_ATTEMPTS ∧
     (handle_connection_failure
        ⟨ConnectionState.ERROR, 5, false, true⟩).1.reconnect_count ≤
        MAX_RECONNECT_ATTEMPTS) ∧
    ((6 : ℕ) ≤ 7 ∧ fail_run 7 initNMState = fail_run 6 initNMState) :=
  ⟨⟨by decide, reconnect_bound.1 _ (by decide)⟩,
   ⟨by decide, reconnect_bound.2.1 7 (by decide)⟩⟩

/-- C7 counterexample: the phase increment for 700 kHz is 24051816
(`0x016F0068`, matching the repository's own test expectation
`0x016F0000 ≤ phase_inc ≤ 0x016F00FF`), not the 24050693 asserted by
the claim. -/
theorem phase_inc_700khz_value :
    freq_to_phase_inc 700000 = 24051816 ∧ freq_to_phase_inc 700000 ≠ 24050693 := by
  constructor <;> decide

/-- In the claim's frequency range the remainder of `f * 2^32` modulo
125000000 is a nonzero multiple of 64, so the exact quotient is never
within `64/125000000` of an integer.  Hence its floor is insensitive to
perturbations up to `2^-28` — in particular to the rounding of the
double-precision division performed by the Python source (whose result
there has magnitude below `2^26` and hence a half-ulp of at most
`2^-28`, the numerator `f * 2^32` being exactly representable below
`2^53`). -/
theorem remainder_bounds (f : ℕ) (h1 : FREQ_MIN ≤ f) (h2 : f ≤ FREQ_MAX) :
    64 ≤ f * 2 ^ 32 % 125000000 ∧ f * 2 ^ 32 % 125000000 ≤ 125000000 - 64 := by
  have h1' : 530000 ≤ f := h1
  have h2' : f ≤ 1700000 := h2
  have hfpos : 0 < f := by omega
  have hd64 : (64 : ℕ) ∣ 125000000 := by norm_num
  have hn64 : (64 : ℕ) ∣ f * 2 ^ 32 := ⟨f * 2 ^ 26, by ring⟩
  have hr64 : (64 : ℕ) ∣ f * 2 ^ 32 % 125000000 := (Nat.dvd_mod_iff hd64).mpr hn64
  have hnd : ¬ (125000000 : ℕ) ∣ f * 2 ^ 32 := by
    intro hdvd
    have hdvd' : (64 * 1953125 : ℕ) ∣ 64 * (f * 2 ^ 26) := by
      have e1 : (64 * 1953125 : ℕ) = 125000000 := by norm_num
      have e2 : 64 * (f * 2 ^ 26) = f * 2 ^ 32 := by ring
      rw [e1, e2]
      exact hdvd
    have hdvd2 : (1953125 : ℕ) ∣ f * 2 ^ 26 :=
      (Nat.mul_dvd_mul_iff_left (by norm_num : (0 : ℕ) < 64)).mp hdvd'
    have hcop : Nat.Coprime 1953125 (2 ^ 26) := by
      have e5 : (1953125 : ℕ) = 5 ^ 9 := by norm_num
      rw [e5]
      exact Nat.Coprime.pow 9 26 (by norm_num)
    have hdvdf : (1953125 : ℕ) ∣ f := hcop.dvd_of_dvd_mul_right hdvd2
    have hle : (1953125 : ℕ) ≤ f := Nat.le_of_dvd hfpos hdvdf
    exact absurd (hle.trans h2') (by norm_num)
  have hrne : f * 2 ^ 32 % 125000000 ≠ 0 := fun h0 => hnd (Nat.dvd_of_mod_eq_zero h0)
  have hlt : f * 2 ^ 32 % 125000000 < 125000000 := Nat.mod_lt _ (by norm_num)
  obtain ⟨a, ha⟩ := hr64
  rw [ha] at hrne hlt ⊢
  omega

/-- Floors are stable under perturbations smaller than the distance of
the exact value `k + r/125000000` to the neighbouring integers. -/
theorem floor_stable (k r : ℕ) (q : ℚ) (h64 : 64 ≤ r) (hub : r ≤ 125000000 - 64)
    (hq : |q - ((k : ℚ) + (r : ℚ) / 125000000)| ≤ 1 / 2 ^ 28) :
    Int.floor q = (k : ℤ) := by
  obtain ⟨hq1, hq2⟩ := abs_le.mp hq
  have h64q : (64 : ℚ) ≤ (r : ℚ) := by exact_mod_cast h64
  have hubq : (r : ℚ) ≤ 125000000 - 64 := by
    have h := (Nat.cast_le (α := ℚ)).mpr hub
    push_cast at h
    linarith
  rw [Int.floor_eq_iff]
  constructor
  · push_cast
    linarith
  · push_cast
    linarith

/-- C7 amended: for every frequency in `[FREQ_MIN, FREQ_MAX]` the
floor of any rational within `2^-28` of the exact quotient
`f * 2^32 / 125000000` — which covers the double-precision value the
Python source truncates — equals the exact truncating division, the
`& 0xFFFFFFFF` mask is the identity there, and the particular value at
700 kHz is 24051816 (not the claim's 24050693). -/
theorem freq_to_phase_inc_floor (f : ℕ) (h1 : FREQ_MIN ≤ f) (h2 : f ≤ FREQ_MAX)
    (q : ℚ) (hq : |q - (f * 2 ^ 32 : ℚ) / 125000000| ≤ 1 / 2 ^ 28) :
    Int.floor q = ((f * 2 ^ 32 / FPGA_CLK_HZ : ℕ) : ℤ) ∧
    freq_to_phase_inc f = f * 2 ^ 32 / FPGA_CLK_HZ ∧
    freq_to_phase_inc 700000 = 24051816 := by
  have h2' : f ≤ 1700000 := h2
  have hflt : f < 125000000 := by omega
  obtain ⟨hrlb, hrub⟩ := remainder_bounds f h1 h2
  have hclk : FPGA_CLK_HZ = 125000000 := rfl
  have hkey : 125000000 * (f * 2 ^ 32 / 125000000) + f * 2 ^ 32 % 125000000
      = f * 2 ^ 32 := Nat.div_add_mod _ _
  have hndq : (f * 2 ^ 32 : ℚ) / 125000000
      = ((f * 2 ^ 32 / 125000000 : ℕ) : ℚ)
        + ((f * 2 ^ 32 % 125000000 : ℕ) : ℚ) / 125000000 := by
    have hc : ((125000000 * (f * 2 ^ 32 / 125000000) + f * 2 ^ 32 % 125000000 : ℕ) : ℚ)
        = ((f * 2 ^ 32 : ℕ) : ℚ) := by
      exact_mod_cast congrArg (fun n : ℕ => (n : ℚ)) hkey
    push_cast at hc
    field_simp
    linarith
  rw [hndq] at hq
  refine ⟨?_, ?_, by decide⟩
  · rw [hclk]
    exact floor_stable _ _ q hrlb hrub hq
  · unfold freq_to_phase_inc
    rw [hclk]
    have hklt : f * 2 ^ 32 / 125000000 < 2 ^ 32 := by
      rw [Nat.div_lt_iff_lt_mul (by norm_num : (0 : ℕ) < 125000000)]
      calc f * 2 ^ 32 < 125000000 * 2 ^ 32 :=
            (Nat.mul_lt_mul_right (by norm_num : (0 : ℕ) < 2 ^ 32)).mpr hflt
        _ = 2 ^ 32 * 125000000 := by ring
    exact Nat.mod_eq_of_lt hklt

/-- Witness for `freq_to_phase_inc_floor` at 700 kHz with the exact
quotient itself as the perturbed value. -/
theorem freq_to_phase_inc_floor_witness :
    (FREQ_MIN ≤ 700000 ∧ 700000 ≤ FREQ_MAX ∧
     |((700000 * 2 ^ 32 : ℚ) / 125000000) - (700000 * 2 ^ 32 : ℚ) / 125000000|
       ≤ 1 / 2 ^ 28) ∧
    (Int.floor ((700000 * 2 ^ 32 : ℚ) / 125000000)
        = ((700000 * 2 ^ 32 / FPGA_CLK_HZ : ℕ) : ℤ) ∧
     freq_to_phase_inc 700000 = 700000 * 2 ^ 32 / FPGA_CLK_HZ ∧
     freq_to_phase_inc 700000 = 24051816) :=
  ⟨⟨by decide, by decide, by simp⟩,
   freq_to_phase_inc_floor 700000 (by decide) (by decide) _ (by simp)⟩

end AmRadio
